import Mathlib

/-!
Shallow embedding of the order-management backend
(`aws-eventdriven-serverlessv4-demo`): domain entities and the fluent
`OrderBuilder` (src/models/entities.ts), the zod request schemas
(src/models/schemas.ts), the retry/backoff executor and response helpers
(src/utils/helpers.ts), the DynamoDB repository's pagination-token
handling (src/utils/dynamodb-repository.ts), the event publisher's
handler registry (src/services/event-publisher.ts), the order service
(src/services/order-service.ts), and the Lambda middleware chain and
HTTP handlers (src/middleware/lambda-middleware.ts,
src/handlers/order-handlers.ts).

Numbers: JS numbers that carry money (item price, total amount) are
modelled as `Rat`; quantities, versions, counts and millisecond delays
as `Nat`.  Timestamps (`new Date().toISOString()`) are threaded as an
explicit `now : String` parameter.
-/

namespace OrderSys

/-- OrderStatus enum from src/models/entities.ts. -/
inductive OrderStatus where
  | PENDING
  | PROCESSING
  | SHIPPED
  | DELIVERED
  | CANCELLED
deriving DecidableEq, Repr

/-- Address interface from src/models/entities.ts. -/
structure Address where
  street : String
  city : String
  state : String
  zipCode : String
  country : String
deriving DecidableEq, Repr

/-- One entry of `Order.items` (productId, name, quantity, price). -/
structure OrderItem where
  productId : String
  name : String
  quantity : Nat
  price : Rat
deriving DecidableEq, Repr

/-- Order entity from src/models/entities.ts.  The optional metadata
map is an association list. -/
structure Order where
  orderId : String
  customerId : String
  customerEmail : String
  items : List OrderItem
  status : OrderStatus
  totalAmount : Rat
  shippingAddress : Address
  metadata : Option (List (String × String)) := none
  createdAt : String
  updatedAt : String
  version : Nat
deriving DecidableEq, Repr

/-- Total of a list of items, exactly as computed by
`items.reduce((sum, item) => sum + item.price * item.quantity, 0)`
in `OrderBuilder.withItems` and `OrderService.updateOrder`. -/
def itemsTotal (items : List OrderItem) : Rat :=
  items.foldl (fun sum item => sum + item.price * (item.quantity : Rat)) 0

/-- Internal state of `OrderBuilder` (src/models/entities.ts): the
`Partial<Order>` it mutates.  Initial state `{ version: 1 }`. -/
structure OrderBuilder where
  orderId : Option String := none
  customerId : Option String := none
  customerEmail : Option String := none
  items : Option (List OrderItem) := none
  status : Option OrderStatus := none
  totalAmount : Option Rat := none
  shippingAddress : Option Address := none
  metadata : Option (List (String × String)) := none
  version : Nat := 1
deriving DecidableEq, Repr

namespace OrderBuilder

/-- `new OrderBuilder()`: the fresh builder state `{ version: 1 }`. -/
def init : OrderBuilder := {}

/-- Builder method `withOrderId`. -/
def withOrderId (b : OrderBuilder) (orderId : String) : OrderBuilder :=
  { b with orderId := some orderId }

/-- Builder method `withCustomerId`. -/
def withCustomerId (b : OrderBuilder) (customerId : String) : OrderBuilder :=
  { b with customerId := some customerId }

/-- Builder method `withCustomerEmail`. -/
def withCustomerEmail (b : OrderBuilder) (email : String) : OrderBuilder :=
  { b with customerEmail := some email }

/-- Builder method `withItems`: stores the items and recomputes
`totalAmount` from them. -/
def withItems (b : OrderBuilder) (items : List OrderItem) : OrderBuilder :=
  { b with items := some items, totalAmount := some (itemsTotal items) }

/-- Builder method `withStatus`. -/
def withStatus (b : OrderBuilder) (status : OrderStatus) : OrderBuilder :=
  { b with status := some status }

/-- Builder method `withShippingAddress`. -/
def withShippingAddress (b : OrderBuilder) (address : Address) : OrderBuilder :=
  { b with shippingAddress := some address }

/-- Builder method `withMetadata`: assigns only when the argument is
neither null nor undefined. -/
def withMetadata (b : OrderBuilder) (metadata : Option (List (String × String))) :
    OrderBuilder :=
  match metadata with
  | some m => { b with metadata := some m }
  | none => b

/-- `OrderBuilder.build()`: validates required fields in source order and
raises the first failing check's message; otherwise assembles the Order,
defaulting status to PENDING, stamping both timestamps to `now` and
forcing version to 1.  (`totalAmount` is whatever the builder state
holds; every `withItems` call keeps it equal to `itemsTotal items`.) -/
def build (b : OrderBuilder) (now : String) : Except String Order :=
  if b.orderId = none ∨ b.orderId = some "" then
    .error "Order ID is required"
  else if b.customerId = none ∨ b.customerId = some "" then
    .error "Customer ID is required"
  else if b.customerEmail = none ∨ b.customerEmail = some "" then
    .error "Customer email is required"
  else if b.items = none ∨ b.items = some [] then
    .error "Order must have at least one item"
  else if b.shippingAddress = none then
    .error "Shipping address is required"
  else
    .ok
      { orderId := b.orderId.getD ""
        customerId := b.customerId.getD ""
        customerEmail := b.customerEmail.getD ""
        items := b.items.getD []
        status := b.status.getD .PENDING
        totalAmount := b.totalAmount.getD 0
        shippingAddress := b.shippingAddress.getD
          { street := "", city := "", state := "", zipCode := "", country := "" }
        metadata := b.metadata
        createdAt := now
        updatedAt := now
        version := 1 }

end OrderBuilder

/-- One fluent call on an `OrderBuilder`, for reasoning about arbitrary
call sequences. -/
inductive BuilderCall where
  | withOrderId (orderId : String)
  | withCustomerId (customerId : String)
  | withCustomerEmail (email : String)
  | withItems (items : List OrderItem)
  | withStatus (status : OrderStatus)
  | withShippingAddress (address : Address)
  | withMetadata (metadata : Option (List (String × String)))
deriving DecidableEq, Repr

/-- Apply one fluent call to a builder state. -/
def applyCall (b : OrderBuilder) : BuilderCall → OrderBuilder
  | .withOrderId oid => b.withOrderId oid
  | .withCustomerId cid => b.withCustomerId cid
  | .withCustomerEmail e => b.withCustomerEmail e
  | .withItems items => b.withItems items
  | .withStatus s => b.withStatus s
  | .withShippingAddress a => b.withShippingAddress a
  | .withMetadata m => b.withMetadata m

/-- Run a sequence of fluent calls on a fresh `new OrderBuilder()`. -/
def applyCalls (calls : List BuilderCall) : OrderBuilder :=
  calls.foldl applyCall OrderBuilder.init

/-- Concrete line items used to instantiate universally quantified
theorems. -/
def sampleItems : List OrderItem :=
  [{ productId := "123e4567-e89b-12d3-a456-426614174000", name := "Product",
     quantity := 2, price := 3 }]

/-- Concrete shipping address used to instantiate universally
quantified theorems. -/
def sampleAddress : Address :=
  { street := "123 Main St", city := "Boston", state := "MA",
    zipCode := "02101", country := "US" }

/-- Concrete builder-call sequence used to instantiate universally
quantified theorems. -/
def sampleCalls : List BuilderCall :=
  [BuilderCall.withOrderId "order-123",
   BuilderCall.withCustomerId "customer-123",
   BuilderCall.withCustomerEmail "test@example.com",
   BuilderCall.withItems sampleItems,
   BuilderCall.withShippingAddress sampleAddress]

end OrderSys

namespace OrderSys

/-- Builder-state invariant: whenever items are set, `totalAmount` is
the recomputed total of those items (every `withItems` call establishes
it and no other call touches either field). -/
def TotalSynced (b : OrderBuilder) : Prop :=
  ∀ its, b.items = some its → b.totalAmount = some (itemsTotal its)

/-- Modelled from the spec (refinement side for the error-precedence
claim): the distinct descriptive error of the first missing required
field, checked in the fixed order order id → customer id → customer
email → items → shipping address, where a required string is missing
when absent or empty and the item list is missing when absent or empty;
`none` when nothing is missing. -/
def firstMissingError (b : OrderBuilder) : Option String :=
  if b.orderId = none ∨ b.orderId = some "" then
    some "Order ID is required"
  else if b.customerId = none ∨ b.customerId = some "" then
    some "Customer ID is required"
  else if b.customerEmail = none ∨ b.customerEmail = some "" then
    some "Customer email is required"
  else if b.items = none ∨ b.items = some [] then
    some "Order must have at least one item"
  else if b.shippingAddress = none then
    some "Shipping address is required"
  else
    none

end OrderSys

namespace OrderSys

/-- Options of `retryWithBackoff` (src/utils/helpers.ts) with the
source defaults; delays in milliseconds. -/
structure RetryOptions where
  maxRetries : Nat := 3
  initialDelayMs : Nat := 100
  maxDelayMs : Nat := 10000
  backoffMultiplier : Nat := 2
deriving DecidableEq, Repr

/-- Delay slept before the retry that follows failed attempt number
`attempt`:
`Math.min(initialDelayMs * Math.pow(backoffMultiplier, attempt), maxDelayMs)`. -/
def retryDelay (opts : RetryOptions) (attempt : Nat) : Nat :=
  min (opts.initialDelayMs * opts.backoffMultiplier ^ attempt) opts.maxDelayMs

/-- Trace of one `retryWithBackoff` run: the final outcome, how many
times `fn` was called, and the sequence of sleeps performed in order. -/
structure RetryTrace (E A : Type) where
  result : Except E A
  calls : Nat
  delays : List Nat

/-- Body of the `for (let attempt = 0; attempt <= maxRetries; ...)`
loop of `retryWithBackoff`: `fn attempt` is the outcome of the call at
index `attempt`; `remaining` is how many further attempts are allowed
(`maxRetries - attempt`).  On success return immediately; on failure
with no attempt remaining re-throw the caught error unchanged,
otherwise sleep `retryDelay` and continue with the next attempt. -/
def retryGo {E A : Type} (fn : Nat → Except E A) (opts : RetryOptions)
    (attempt : Nat) : Nat → RetryTrace E A
  | 0 =>
    match fn attempt with
    | .ok a => ⟨.ok a, attempt + 1, []⟩
    | .error e => ⟨.error e, attempt + 1, []⟩
  | r + 1 =>
    match fn attempt with
    | .ok a => ⟨.ok a, attempt + 1, []⟩
    | .error _ =>
      let t := retryGo fn opts (attempt + 1) r
      ⟨t.result, t.calls, retryDelay opts attempt :: t.delays⟩

/-- `retryWithBackoff(fn, options)` from src/utils/helpers.ts, as the
trace of calls it makes: the loop starts at attempt 0 with
`opts.maxRetries` further attempts allowed. -/
def retryWithBackoff {E A : Type} (fn : Nat → Except E A)
    (opts : RetryOptions) : RetryTrace E A :=
  retryGo fn opts 0 opts.maxRetries

end OrderSys

namespace OrderSys

/-- PaymentStatus enum from src/models/types.ts. -/
inductive PaymentStatus where
  | PENDING
  | COMPLETED
  | FAILED
  | REFUNDED
deriving DecidableEq, Repr

/-- Value stored under one key of the `Partial<Order>` update map that
`OrderService.updateOrder` builds (each updatable Order field has its
own value shape). -/
inductive FieldValue where
  | str (s : String)
  | nat (n : Nat)
  | rat (q : Rat)
  | items (items : List OrderItem)
  | status (s : OrderStatus)
  | addr (a : Address)
deriving DecidableEq, Repr

/-- Payload of ORDER_CREATED (src/models/types.ts). -/
structure OrderCreatedPayload where
  orderId : String
  customerId : String
  items : List OrderItem
  totalAmount : Rat
  createdAt : String
deriving DecidableEq, Repr

/-- Payload of ORDER_UPDATED (src/models/types.ts); `updates` is the
partial-update map, keyed by Order field name. -/
structure OrderUpdatedPayload where
  orderId : String
  updates : List (String × FieldValue)
  updatedAt : String
deriving DecidableEq, Repr

/-- Payload of ORDER_DELETED (src/models/types.ts). -/
structure OrderDeletedPayload where
  orderId : String
  deletedAt : String
  reason : Option String
deriving DecidableEq, Repr

/-- Payload of PAYMENT_PROCESSED (src/models/types.ts). -/
structure PaymentProcessedPayload where
  orderId : String
  paymentId : String
  amount : Rat
  status : PaymentStatus
  processedAt : String
deriving DecidableEq, Repr

/-- DomainEvent discriminated union from src/models/types.ts. -/
inductive DomainEvent where
  | orderCreated (payload : OrderCreatedPayload)
  | orderUpdated (payload : OrderUpdatedPayload)
  | orderDeleted (payload : OrderDeletedPayload)
  | paymentProcessed (payload : PaymentProcessedPayload)
deriving DecidableEq, Repr

/-- Discriminant string of a DomainEvent (its `type` field). -/
def DomainEvent.eventTag : DomainEvent → String
  | .orderCreated _ => "ORDER_CREATED"
  | .orderUpdated _ => "ORDER_UPDATED"
  | .orderDeleted _ => "ORDER_DELETED"
  | .paymentProcessed _ => "PAYMENT_PROCESSED"

/-- UpdateOrderRequest (src/models/schemas.ts): orderId plus optional
items, status and shippingAddress. -/
structure UpdateOrderRequest where
  orderId : String
  items : Option (List OrderItem) := none
  status : Option OrderStatus := none
  shippingAddress : Option Address := none
deriving DecidableEq, Repr

/-- The `updates` object literal of `OrderService.updateOrder`:
always-present updatedAt (now) and version (existing + 1), then the
conditional spreads for items (with recomputed totalAmount), status and
shippingAddress, in source order. -/
def buildUpdates (request : UpdateOrderRequest) (existingOrder : Order)
    (now : String) : List (String × FieldValue) :=
  [("updatedAt", FieldValue.str now),
   ("version", FieldValue.nat (existingOrder.version + 1))]
  ++ (match request.items with
      | some its =>
        [("items", FieldValue.items its),
         ("totalAmount", FieldValue.rat (itemsTotal its))]
      | none => [])
  ++ (match request.status with
      | some s => [("status", FieldValue.status s)]
      | none => [])
  ++ (match request.shippingAddress with
      | some a => [("shippingAddress", FieldValue.addr a)]
      | none => [])

/-- Store semantics of one `SET #attr = :val` assignment produced by
`DynamoDBRepository.update`: assign the named Order field. -/
def applyField (o : Order) : String × FieldValue → Order
  | ("updatedAt", FieldValue.str s) => { o with updatedAt := s }
  | ("version", FieldValue.nat n) => { o with version := n }
  | ("items", FieldValue.items l) => { o with items := l }
  | ("totalAmount", FieldValue.rat q) => { o with totalAmount := q }
  | ("status", FieldValue.status s) => { o with status := s }
  | ("shippingAddress", FieldValue.addr a) => { o with shippingAddress := a }
  | _ => o

/-- `DynamoDBRepository.update` as seen by the service: every entry of
the partial map becomes one assignment of the SET expression, applied
to the stored record; `ReturnValues: ALL_NEW` hands back the
post-update entity. -/
def repoUpdate (o : Order) (updates : List (String × FieldValue)) : Order :=
  updates.foldl applyField o

/-- `OrderService.updateOrder` (src/services/order-service.ts) against
a store snapshot `db`: load the existing order (error
"Order not found: {id}" if absent), build the partial-update map, apply
it via the repository, publish ORDER_UPDATED with
{orderId, updates, updatedAt} taken from the store-confirmed entity and
the exact map, and return the entity.  Result: the returned order and
the published event. -/
def updateOrder (db : String → Option Order) (request : UpdateOrderRequest)
    (now : String) : Except String (Order × DomainEvent) :=
  match db request.orderId with
  | none => .error ("Order not found: " ++ request.orderId)
  | some existingOrder =>
    let updates := buildUpdates request existingOrder now
    let updatedOrder := repoUpdate existingOrder updates
    .ok (updatedOrder,
      DomainEvent.orderUpdated
        { orderId := updatedOrder.orderId
          updates := updates
          updatedAt := updatedOrder.updatedAt })

/-- Concrete stored order used to instantiate universally quantified
theorems. -/
def sampleOrder : Order :=
  { orderId := "order-1"
    customerId := "customer-123"
    customerEmail := "test@example.com"
    items := sampleItems
    status := OrderStatus.PENDING
    totalAmount := itemsTotal sampleItems
    shippingAddress := sampleAddress
    metadata := none
    createdAt := "2026-01-01T00:00:00.000Z"
    updatedAt := "2026-01-01T00:00:00.000Z"
    version := 4 }

/-- Concrete one-order store snapshot used to instantiate universally
quantified theorems. -/
def sampleDb : String → Option Order :=
  fun id => if id = "order-1" then some sampleOrder else none

end OrderSys

namespace OrderSys

/-- JS `Map.set` on an association list: replace the value in place
when the key is present, append otherwise. -/
def mapSet {V : Type} (m : List (String × V)) (k : String) (v : V) :
    List (String × V) :=
  match m with
  | [] => [(k, v)]
  | (entryKey, entryVal) :: rest =>
    if entryKey = k then (k, v) :: rest
    else (entryKey, entryVal) :: mapSet rest k v

/-- EventHandlerRegistry (src/services/event-publisher.ts): a
`Map<string, EventHandler>`; a handler either completes or raises an
error of type E. -/
structure EventHandlerRegistry (E : Type) where
  handlers : List (String × (DomainEvent → Except E Unit)) := []

/-- `register(eventType, handler)`: `this.handlers.set(eventType, handler)`. -/
def EventHandlerRegistry.register {E : Type} (r : EventHandlerRegistry E)
    (eventType : String) (handler : DomainEvent → Except E Unit) :
    EventHandlerRegistry E :=
  { handlers := mapSet r.handlers eventType handler }

/-- `dispatch(event)`: look up the handler by the event's tag; log a
warning and return when none is registered; otherwise run the handler,
re-throwing a raised error unchanged. -/
def EventHandlerRegistry.dispatch {E : Type} (r : EventHandlerRegistry E)
    (event : DomainEvent) : Except E Unit :=
  match r.handlers.lookup event.eventTag with
  | none => .ok ()
  | some handler => handler event

end OrderSys

namespace OrderSys

/-- Standard base64 alphabet used by Node's
`Buffer.toString('base64')`. -/
def b64Alphabet : List Char :=
  "ABCDEFGHIJKLMNOPQRSTUVWXYZabcdefghijklmnopqrstuvwxyz0123456789+/".toList

/-- Character encoding one 6-bit group. -/
def b64Char (n : Nat) : Char := b64Alphabet.getD n 'A'

/-- Inverse of `b64Char`: position of a character in the alphabet. -/
def b64Index (c : Char) : Option Nat := b64Alphabet.indexOf? c

/-- Node `Buffer.from(bytes).toString('base64')`: 3-byte groups become
4 characters; a trailing 1- or 2-byte group is padded with `==` or
`=`. -/
def base64EncodeChars : List Nat → List Char
  | [] => []
  | [a] =>
    [b64Char (a / 4), b64Char (a % 4 * 16), '=', '=']
  | [a, b] =>
    [b64Char (a / 4), b64Char (a % 4 * 16 + b / 16), b64Char (b % 16 * 4), '=']
  | a :: b :: c :: rest =>
    [b64Char (a / 4), b64Char (a % 4 * 16 + b / 16),
     b64Char (b % 16 * 4 + c / 64), b64Char (c % 64)]
    ++ base64EncodeChars rest

/-- String form of `base64EncodeChars`. -/
def base64Encode (bytes : List Nat) : String :=
  String.mk (base64EncodeChars bytes)

/-- Node `Buffer.from(token, 'base64')`: decode 4-character groups back
to bytes, honouring `=` padding on the final group; `none` on input
that is not a base64 encoding. -/
def base64DecodeChars : List Char → Option (List Nat)
  | [] => some []
  | c1 :: c2 :: c3 :: c4 :: rest =>
    if c3 = '=' ∧ c4 = '=' ∧ rest = [] then
      match b64Index c1, b64Index c2 with
      | some i1, some i2 => some [i1 * 4 + i2 / 16]
      | _, _ => none
    else if c4 = '=' ∧ rest = [] then
      match b64Index c1, b64Index c2, b64Index c3 with
      | some i1, some i2, some i3 =>
        some [i1 * 4 + i2 / 16, i2 % 16 * 16 + i3 / 4]
      | _, _, _ => none
    else
      match b64Index c1, b64Index c2, b64Index c3, b64Index c4,
          base64DecodeChars rest with
      | some i1, some i2, some i3, some i4, some tail =>
        some ([i1 * 4 + i2 / 16, i2 % 16 * 16 + i3 / 4, i3 % 4 * 64 + i4] ++ tail)
      | _, _, _, _, _ => none
  | _ => none

/-- String form of `base64DecodeChars`. -/
def base64Decode (s : String) : Option (List Nat) :=
  base64DecodeChars s.data

end OrderSys

namespace OrderSys

/-- PaginatedResult from src/models/entities.ts. -/
structure PaginatedResult (T : Type) where
  items : List T
  nextToken : Option String := none
  count : Nat
deriving DecidableEq, Repr

/-- One page as returned by the document store's Scan/Query call:
Items, the serialized LastEvaluatedKey (resume cursor, as bytes) when
the page is not the last one, and Count. -/
structure ScanPage where
  items : List Order
  lastEvaluatedKey : Option (List Nat) := none
  count : Nat
deriving DecidableEq, Repr

/-- `DynamoDBRepository.findAll` (src/utils/dynamodb-repository.ts),
parameterized by the store's Scan operation `scan` mapping the
ExclusiveStartKey cursor to a page.  An incoming nextToken is decoded
with `JSON.parse(Buffer.from(nextToken, 'base64').toString())` —
modelled as `base64Decode` over the serialized-cursor bytes, `none` on
a malformed token (the thrown parse error).  The outgoing nextToken is
`Buffer.from(JSON.stringify(LastEvaluatedKey)).toString('base64')` —
modelled as `base64Encode` of the page's cursor bytes. -/
def findAll (scan : Option (List Nat) → ScanPage)
    (nextToken : Option String) : Option (PaginatedResult Order) :=
  match nextToken with
  | none =>
    let r := scan none
    some { items := r.items,
           nextToken := r.lastEvaluatedKey.map base64Encode,
           count := r.count }
  | some tok =>
    match base64Decode tok with
    | none => none
    | some key =>
      let r := scan (some key)
      some { items := r.items,
             nextToken := r.lastEvaluatedKey.map base64Encode,
             count := r.count }

/-- `DynamoDBRepository.queryByIndex`, parameterized by the store's
Query operation taking IndexName, KeyConditionExpression, the bound
expression values and the ExclusiveStartKey cursor; the
continuation-token handling is identical to `findAll`. -/
def queryByIndex
    (query : String → String → List (String × String) → Option (List Nat) → ScanPage)
    (indexName keyConditionExpression : String)
    (expressionAttributeValues : List (String × String))
    (nextToken : Option String) : Option (PaginatedResult Order) :=
  match nextToken with
  | none =>
    let r := query indexName keyConditionExpression expressionAttributeValues none
    some { items := r.items,
           nextToken := r.lastEvaluatedKey.map base64Encode,
           count := r.count }
  | some tok =>
    match base64Decode tok with
    | none => none
    | some key =>
      let r := query indexName keyConditionExpression expressionAttributeValues
        (some key)
      some { items := r.items,
             nextToken := r.lastEvaluatedKey.map base64Encode,
             count := r.count }

end OrderSys

namespace OrderSys

/-- One field-level violation of a zod schema: path and message. -/
structure ZodIssue where
  path : List String
  message : String
deriving DecidableEq, Repr

/-- Value thrown by the inner chain and caught by
`errorHandlerMiddleware`: a ZodError carrying its issues, an `Error`
carrying its message, or any other JS value (held opaquely). -/
inductive Thrown where
  | zodError (issues : List ZodIssue)
  | jsError (message : String)
  | nonError (value : String)
deriving DecidableEq, Repr

/-- APIGatewayProxyResult restricted to the fields the claims are
about: statusCode and the serialized body (headers, which the CORS
middleware only overlays, are elided). -/
structure LambdaResult where
  statusCode : Nat
  body : String
deriving DecidableEq, Repr

/-- JSON rendering of a string (escaping elided: the strings the
claims use contain no quotes or control characters). -/
def jsonString (s : String) : String := "\"" ++ s ++ "\""

/-- JSON rendering of one ZodIssue. -/
def zodIssueJson (i : ZodIssue) : String :=
  "\x7b\"path\":[" ++ String.intercalate "," (i.path.map jsonString) ++
  "],\"message\":" ++ jsonString i.message ++ "\x7d"

/-- `JSON.stringify(errorResponse({message, details?}, code))` as built
by `errorHandlerMiddleware`: the error envelope whose `error` field is
an object with a message and, for validation errors, the structured
issue list. -/
def errorBodyJson (message : String) (details : Option (List ZodIssue))
    (code : String) : String :=
  "\x7b\"success\":false,\"error\":\x7b\"message\":" ++ jsonString message ++
  (match details with
   | some issues =>
     ",\"details\":[" ++ String.intercalate "," (issues.map zodIssueJson) ++ "]"
   | none => "") ++
  "\x7d,\"code\":" ++ jsonString code ++ "\x7d"

/-- `JSON.stringify(errorResponse(errorText, code))` as built inline by
the HTTP handlers when a path parameter is missing: the error envelope
whose `error` field is a plain string. -/
def errorStringBodyJson (error : String) (code : String) : String :=
  "\x7b\"success\":false,\"error\":" ++ jsonString error ++
  ",\"code\":" ++ jsonString code ++ "\x7d"

/-- `JSON.stringify(successResponse(data, metadata?))`
(src/utils/helpers.ts): the success envelope; metadata is emitted only
when a requestId was supplied and stamps timestamp = now and version
"1.0". -/
def successBodyJson (dataJson : String) (requestId : Option String)
    (now : String) : String :=
  match requestId with
  | some rid =>
    "\x7b\"success\":true,\"data\":" ++ dataJson ++
    ",\"metadata\":\x7b\"requestId\":" ++ jsonString rid ++
    ",\"timestamp\":" ++ jsonString now ++ ",\"version\":\"1.0\"\x7d\x7d"
  | none => "\x7b\"success\":true,\"data\":" ++ dataJson ++ "\x7d"

/-- `createResponse(statusCode, data, requestId)`
(src/middleware/lambda-middleware.ts): wraps the data in the success
envelope. -/
def createResponse (statusCode : Nat) (dataJson : String)
    (requestId : Option String) (now : String) : LambdaResult :=
  { statusCode := statusCode, body := successBodyJson dataJson requestId now }

/-- `errorHandlerMiddleware` (src/middleware/lambda-middleware.ts):
awaits the inner chain and catches anything thrown — a ZodError maps to
HTTP 400 with the structured issue list, an Error to HTTP 500 with that
error's message, anything else to HTTP 500 with a generic message; the
result is always a response, never a re-thrown value. -/
def errorHandlerMiddleware (inner : Except Thrown LambdaResult) :
    Except Thrown LambdaResult :=
  .ok
    (match inner with
     | .ok result => result
     | .error (.zodError issues) =>
       { statusCode := 400,
         body := errorBodyJson "Validation error" (some issues) "VALIDATION_ERROR" }
     | .error (.jsError message) =>
       { statusCode := 500,
         body := errorBodyJson message none "INTERNAL_ERROR" }
     | .error (.nonError _) =>
       { statusCode := 500,
         body := errorBodyJson "Internal server error" none "INTERNAL_ERROR" })

/-- `validationMiddleware(schema)` (src/middleware/lambda-middleware.ts)
over an already-parsed JSON body of shape `Raw`: a null or undefined
`event.body` is replaced by the empty object `emptyObj`, the result is
validated with `schemaParse`; on success the normalized value is
attached as `validatedBody` and handed to the rest of the chain, on
failure the ZodError is re-thrown (after a warn log) for the error
boundary to map. -/
def validationMiddleware {Raw V : Type} (emptyObj : Raw)
    (schemaParse : Raw → Except (List ZodIssue) V)
    (body : Option Raw)
    (next : V → Except Thrown LambdaResult) : Except Thrown LambdaResult :=
  match schemaParse (body.getD emptyObj) with
  | .error issues => .error (.zodError issues)
  | .ok validated => next validated

end OrderSys

namespace OrderSys

/-- Parsed JSON body of a DELETE /orders/\x7borderId\x7d request: may
optionally supply a reason. -/
structure DeleteBody where
  reason : Option String := none
deriving DecidableEq, Repr

/-- APIGatewayProxyEvent restricted to what `deleteOrderHandler` reads:
the path parameters map and the (already JSON-parsed) request body;
`body = none` models a null/undefined body ("{}" is then used). -/
structure DeleteApiEvent where
  pathParameters : Option (List (String × String)) := none
  body : Option DeleteBody := none
deriving DecidableEq, Repr

/-- `deleteOrderHandler` (src/handlers/order-handlers.ts) inner
handler, against store snapshot `db`: missing orderId path parameter →
400 with the VALIDATION_ERROR envelope; otherwise
`orderService.deleteOrder` verifies existence (throwing
"Order not found: {id}", re-thrown by the handler's catch), deletes,
publishes ORDER_DELETED (side effects elided — only the HTTP response
is modelled), and the handler returns
`createResponse(204, {}, requestId)`. -/
def deleteOrderHandler (db : String → Option Order) (event : DeleteApiEvent)
    (requestId now : String) : Except Thrown LambdaResult :=
  match event.pathParameters.bind (fun ps => ps.lookup "orderId") with
  | none =>
    .ok { statusCode := 400,
          body := errorStringBodyJson "Order ID is required" "VALIDATION_ERROR" }
  | some orderId =>
    match db orderId with
    | none => .error (.jsError ("Order not found: " ++ orderId))
    | some _ => .ok (createResponse 204 "\x7b\x7d" (some requestId) now)

/-- The full DELETE Lambda as wired by `withMiddleware(handler,
errorHandlerMiddleware, loggingMiddleware, corsMiddleware)`: logging
and CORS do not change statusCode or body, so the stack is the error
boundary around the inner handler. -/
def deleteOrderLambda (db : String → Option Order) (event : DeleteApiEvent)
    (requestId now : String) : Except Thrown LambdaResult :=
  errorHandlerMiddleware (deleteOrderHandler db event requestId now)

/-- Concrete DELETE event naming the stored sample order. -/
def sampleDeleteEvent : DeleteApiEvent :=
  { pathParameters := some [("orderId", "order-1")], body := none }

end OrderSys

namespace OrderSys

/-- Raw (JSON-parsed, unvalidated) order item of a creation request;
quantity and price arrive as JSON numbers. -/
structure RawOrderItem where
  productId : Option String := none
  name : Option String := none
  quantity : Option Rat := none
  price : Option Rat := none
deriving DecidableEq, Repr

/-- Raw shipping address of a creation request. -/
structure RawAddress where
  street : Option String := none
  city : Option String := none
  state : Option String := none
  zipCode : Option String := none
  country : Option String := none
deriving DecidableEq, Repr

/-- Raw body of a creation request, before schema validation; a field
is `none` when absent from the JSON object. -/
structure RawCreateOrder where
  customerId : Option String := none
  customerEmail : Option String := none
  items : Option (List RawOrderItem) := none
  shippingAddress : Option RawAddress := none
  metadata : Option (List (String × String)) := none
deriving DecidableEq, Repr

/-- Normalized result of `createOrderSchema.parse`
(src/models/schemas.ts). -/
structure CreateOrderRequest where
  customerId : String
  customerEmail : String
  items : List OrderItem
  shippingAddress : Address
  metadata : Option (List (String × String)) := none
deriving DecidableEq, Repr

/-- Model of zod's `z.string().email()` check (the zod engine is an
external library): exactly one `@`, non-empty local part, non-empty
domain containing a dot and not starting or ending with one.
Classifies the claims' inputs as zod does ("invalid-email" invalid,
"test@example.com" valid). -/
def isValidEmail (s : String) : Bool :=
  let cs := s.data
  let localPart := cs.takeWhile (fun c => c ≠ '@')
  let domain := (cs.dropWhile (fun c => c ≠ '@')).drop 1
  cs.count '@' == 1 && !localPart.isEmpty && !domain.isEmpty &&
    domain.contains '.' && domain.headD ' ' ≠ '.' && domain.getLastD ' ' ≠ '.'

/-- Hexadecimal digit test for the uuid check. -/
def isHexDigit (c : Char) : Bool :=
  c.isDigit || ('a' ≤ c && c ≤ 'f') || ('A' ≤ c && c ≤ 'F')

/-- Model of zod's `z.string().uuid()` check: 8-4-4-4-12 hex groups
separated by dashes. -/
def isUuid (s : String) : Bool :=
  let cs := s.data
  cs.length == 36 &&
    (List.range 36).all (fun i =>
      let c := cs.getD i ' '
      if i = 8 ∨ i = 13 ∨ i = 18 ∨ i = 23 then c = '-' else isHexDigit c)

/-- Model of the `zipCode` regex `^\d\x7b5\x7d(-\d\x7b4\x7d)?$`. -/
def isZip (s : String) : Bool :=
  let cs := s.data
  (cs.length == 5 && cs.all Char.isDigit) ||
    (cs.length == 10 && (cs.take 5).all Char.isDigit && cs.getD 5 ' ' = '-' &&
      (cs.drop 6).all Char.isDigit)

/-- Issues of one raw item at `items[idx]`, per `orderItemSchema`:
uuid productId, name of length 1..200, positive integer quantity,
positive price; an absent field is "Required". -/
def orderItemIssues (idx : Nat) (it : RawOrderItem) : List ZodIssue :=
  (match it.productId with
   | none => [⟨["items", toString idx, "productId"], "Required"⟩]
   | some s => if isUuid s then [] else
       [⟨["items", toString idx, "productId"], "Invalid uuid"⟩]) ++
  (match it.name with
   | none => [⟨["items", toString idx, "name"], "Required"⟩]
   | some s =>
     (if s.length < 1 then
        [⟨["items", toString idx, "name"],
          "String must contain at least 1 character(s)"⟩] else []) ++
     (if 200 < s.length then
        [⟨["items", toString idx, "name"],
          "String must contain at most 200 character(s)"⟩] else [])) ++
  (match it.quantity with
   | none => [⟨["items", toString idx, "quantity"], "Required"⟩]
   | some q =>
     (if q.den = 1 then [] else
        [⟨["items", toString idx, "quantity"], "Expected integer, received float"⟩]) ++
     (if 0 < q then [] else
        [⟨["items", toString idx, "quantity"], "Number must be greater than 0"⟩])) ++
  (match it.price with
   | none => [⟨["items", toString idx, "price"], "Required"⟩]
   | some p =>
     if 0 < p then [] else
       [⟨["items", toString idx, "price"], "Number must be greater than 0"⟩])

/-- Issues of the raw shipping address, per `createOrderSchema`:
street/city non-empty, state of exactly 2 characters, zip matching the
5 or 5+4 digit pattern; country is optional (defaulted, never an
issue). -/
def addressIssues (a : RawAddress) : List ZodIssue :=
  (match a.street with
   | none => [⟨["shippingAddress", "street"], "Required"⟩]
   | some s => if s.length < 1 then
       [⟨["shippingAddress", "street"],
         "String must contain at least 1 character(s)"⟩] else []) ++
  (match a.city with
   | none => [⟨["shippingAddress", "city"], "Required"⟩]
   | some s => if s.length < 1 then
       [⟨["shippingAddress", "city"],
         "String must contain at least 1 character(s)"⟩] else []) ++
  (match a.state with
   | none => [⟨["shippingAddress", "state"], "Required"⟩]
   | some s =>
     (if s.length < 2 then
        [⟨["shippingAddress", "state"],
          "String must contain at least 2 character(s)"⟩] else []) ++
     (if 2 < s.length then
        [⟨["shippingAddress", "state"],
          "String must contain at most 2 character(s)"⟩] else [])) ++
  (match a.zipCode with
   | none => [⟨["shippingAddress", "zipCode"], "Required"⟩]
   | some s => if isZip s then [] else [⟨["shippingAddress", "zipCode"], "Invalid"⟩])

/-- All issues of a raw creation request, per `createOrderSchema`
(src/models/schemas.ts): zod object parsing validates every field and
aggregates the issues of all of them — it does not stop at the first
violation. -/
def createOrderIssues (raw : RawCreateOrder) : List ZodIssue :=
  (match raw.customerId with
   | none => [⟨["customerId"], "Required"⟩]
   | some s => if s.length < 1 then
       [⟨["customerId"], "String must contain at least 1 character(s)"⟩] else []) ++
  (match raw.customerEmail with
   | none => [⟨["customerEmail"], "Required"⟩]
   | some s => if isValidEmail s then [] else [⟨["customerEmail"], "Invalid email"⟩]) ++
  (match raw.items with
   | none => [⟨["items"], "Required"⟩]
   | some l =>
     (if l.length < 1 then
        [⟨["items"], "Array must contain at least 1 element(s)"⟩] else []) ++
     (l.enum.map (fun p => orderItemIssues p.1 p.2)).flatten) ++
  (match raw.shippingAddress with
   | none => [⟨["shippingAddress"], "Required"⟩]
   | some a => addressIssues a)

/-- Normalized order item (valid inputs only: quantity is a positive
integer there). -/
def normalizeItem (it : RawOrderItem) : OrderItem :=
  { productId := it.productId.getD ""
    name := it.name.getD ""
    quantity := (it.quantity.getD 0).num.toNat
    price := it.price.getD 0 }

/-- Normalized address: country defaults to the fixed literal "US"
when omitted (`z.string().default('US')`). -/
def normalizeAddress : Option RawAddress → Address
  | some a =>
    { street := a.street.getD ""
      city := a.city.getD ""
      state := a.state.getD ""
      zipCode := a.zipCode.getD ""
      country := a.country.getD "US" }
  | none =>
    { street := "", city := "", state := "", zipCode := "", country := "US" }

/-- `createOrderSchema.parse` (src/models/schemas.ts, executed by the
zod engine): raise a structured error carrying every collected issue
when any rule is violated, otherwise return the normalized, typed
request. -/
def createOrderParse (raw : RawCreateOrder) :
    Except (List ZodIssue) CreateOrderRequest :=
  let issues := createOrderIssues raw
  if issues.isEmpty then
    .ok
      { customerId := (raw.customerId.getD "")
        customerEmail := (raw.customerEmail.getD "")
        items := (raw.items.getD []).map normalizeItem
        shippingAddress := normalizeAddress raw.shippingAddress
        metadata := raw.metadata }
  else
    .error issues

end OrderSys

namespace OrderSys

/-- Concrete raw creation request that passes every schema rule, with
`shippingAddress.country` omitted. -/
def sampleGoodRaw : RawCreateOrder :=
  { customerId := some "customer-123"
    customerEmail := some "test@example.com"
    items := some
      [{ productId := some "123e4567-e89b-12d3-a456-426614174000",
         name := some "Product", quantity := some 2, price := some 3 }]
    shippingAddress := some
      { street := some "123 Main St", city := some "Boston",
        state := some "MA", zipCode := some "02101", country := none } }

/-- `sampleGoodRaw` with an invalid email and an invalid zip code:
two violations in distinct fields. -/
def sampleBadRaw : RawCreateOrder :=
  { sampleGoodRaw with
    customerEmail := some "invalid-email"
    shippingAddress := some
      { street := some "123 Main St", city := some "Boston",
        state := some "MA", zipCode := some "bad", country := none } }

/-- Normalized result of parsing `sampleGoodRaw`. -/
def sampleGoodRequest : CreateOrderRequest :=
  { customerId := "customer-123"
    customerEmail := "test@example.com"
    items := [{ productId := "123e4567-e89b-12d3-a456-426614174000",
                name := "Product", quantity := 2, price := 3 }]
    shippingAddress := { street := "123 Main St", city := "Boston",
                         state := "MA", zipCode := "02101", country := "US" }
    metadata := none }

end OrderSys

namespace OrderSys

theorem applyCall_totalSynced (b : OrderBuilder) (c : BuilderCall)
    (h : TotalSynced b) : TotalSynced (applyCall b c) := by
  cases c with
  | withMetadata m =>
    cases m <;>
      simpa [applyCall, OrderBuilder.withMetadata, TotalSynced] using h
  | _ =>
    intro its hits
    simp only [applyCall, OrderBuilder.withOrderId, OrderBuilder.withCustomerId,
      OrderBuilder.withCustomerEmail, OrderBuilder.withItems, OrderBuilder.withStatus,
      OrderBuilder.withShippingAddress] at hits ⊢
    first
      | (cases hits; rfl)
      | exact h its hits

theorem foldl_totalSynced (calls : List BuilderCall) :
    ∀ b : OrderBuilder, TotalSynced b → TotalSynced (calls.foldl applyCall b) := by
  induction calls with
  | nil => intro b h; simpa using h
  | cons c rest ih =>
    intro b h
    exact ih (applyCall b c) (applyCall_totalSynced b c h)

theorem applyCalls_totalSynced (calls : List BuilderCall) :
    TotalSynced (applyCalls calls) := by
  apply foldl_totalSynced
  intro its h
  simp [OrderBuilder.init] at h

theorem foldl_status_none (calls : List BuilderCall) :
    ∀ b : OrderBuilder, (∀ s, BuilderCall.withStatus s ∉ calls) →
      b.status = none → (calls.foldl applyCall b).status = none := by
  induction calls with
  | nil => intro b _ h; simpa using h
  | cons c rest ih =>
    intro b hno h
    apply ih
    · intro s hs
      exact hno s (List.mem_cons_of_mem c hs)
    · cases c with
      | withStatus s => exact absurd (List.mem_cons_self _ _) (fun hc => hno s hc)
      | withMetadata m =>
        cases m <;> simpa [applyCall, OrderBuilder.withMetadata] using h
      | _ =>
        simpa [applyCall, OrderBuilder.withOrderId, OrderBuilder.withCustomerId,
          OrderBuilder.withCustomerEmail, OrderBuilder.withItems,
          OrderBuilder.withShippingAddress] using h

end OrderSys

namespace OrderSys

/-- C2: every sequence of builder calls ending with a non-empty order
id, customer id and customer email, at least one item and a shipping
address builds an order whose totalAmount is the sum of
quantity × price over the supplied items, whose version is 1, whose
createdAt equals updatedAt (both the non-empty build instant), and
whose status is PENDING whenever no status was ever set. -/
theorem orderBuilder_build_valid (calls : List BuilderCall) (now : String)
    (oid cid email : String) (its : List OrderItem) (addr : Address)
    (hnow : now ≠ "")
    (hoid : (applyCalls calls).orderId = some oid) (hoidne : oid ≠ "")
    (hcid : (applyCalls calls).customerId = some cid) (hcidne : cid ≠ "")
    (hem : (applyCalls calls).customerEmail = some email) (hemne : email ≠ "")
    (hits : (applyCalls calls).items = some its) (hitsne : its ≠ [])
    (haddr : (applyCalls calls).shippingAddress = some addr) :
    ∃ o : Order, OrderBuilder.build (applyCalls calls) now = .ok o ∧
      o.totalAmount = itemsTotal its ∧
      o.version = 1 ∧
      o.createdAt = now ∧ o.updatedAt = now ∧ o.createdAt ≠ "" ∧
      ((∀ s, BuilderCall.withStatus s ∉ calls) → o.status = .PENDING) := by
  have htot : (applyCalls calls).totalAmount = some (itemsTotal its) :=
    applyCalls_totalSynced calls its hits
  have h1 : ¬((applyCalls calls).orderId = none ∨ (applyCalls calls).orderId = some "") := by
    rw [hoid]; simp [hoidne]
  have h2 : ¬((applyCalls calls).customerId = none ∨
      (applyCalls calls).customerId = some "") := by
    rw [hcid]; simp [hcidne]
  have h3 : ¬((applyCalls calls).customerEmail = none ∨
      (applyCalls calls).customerEmail = some "") := by
    rw [hem]; simp [hemne]
  have h4 : ¬((applyCalls calls).items = none ∨ (applyCalls calls).items = some []) := by
    rw [hits]; simp [hitsne]
  have h5 : ¬((applyCalls calls).shippingAddress = none) := by
    rw [haddr]; simp
  rw [OrderBuilder.build, if_neg h1, if_neg h2, if_neg h3, if_neg h4, if_neg h5]
  refine ⟨_, rfl, ?_, rfl, rfl, rfl, hnow, ?_⟩
  · simp [htot]
  · intro hnostatus
    have hst : (calls.foldl applyCall OrderBuilder.init).status = none :=
      foldl_status_none calls OrderBuilder.init hnostatus rfl
    have : (applyCalls calls).status = none := hst
    simp [this]

/-- Witness for `orderBuilder_build_valid` at a concrete call
sequence. -/
theorem orderBuilder_build_valid_witness :
    ∃ o : Order,
      OrderBuilder.build (applyCalls sampleCalls) "2026-01-01T00:00:00.000Z" = .ok o ∧
      o.totalAmount = itemsTotal sampleItems ∧
      o.version = 1 ∧
      o.createdAt = "2026-01-01T00:00:00.000Z" ∧
      o.updatedAt = "2026-01-01T00:00:00.000Z" ∧ o.createdAt ≠ "" ∧
      ((∀ s, BuilderCall.withStatus s ∉ sampleCalls) → o.status = .PENDING) :=
  orderBuilder_build_valid sampleCalls "2026-01-01T00:00:00.000Z"
    "order-123" "customer-123" "test@example.com" sampleItems sampleAddress
    (by decide) rfl (by decide) rfl (by decide) rfl (by decide) rfl (by decide) rfl

/-- C6: `build()` raises exactly the error of the first missing
required field in the fixed order order id → customer id → customer
email → items → shipping address; in particular, with only customerId
set it raises "Order ID is required", and with only orderId and
customerId set it raises "Customer email is required". -/
theorem orderBuilder_build_error_precedence :
    (∀ (b : OrderBuilder) (now e : String),
        OrderBuilder.build b now = .error e ↔ firstMissingError b = some e) ∧
    (∀ now, OrderBuilder.build
        (applyCalls [BuilderCall.withCustomerId "customer-123"]) now =
        .error "Order ID is required") ∧
    (∀ now, OrderBuilder.build
        (applyCalls
          [BuilderCall.withOrderId "order-123",
           BuilderCall.withCustomerId "customer-123"]) now =
        .error "Customer email is required") := by
  refine ⟨fun b now e => ?_, fun now => ?_, fun now => ?_⟩
  · rw [OrderBuilder.build, firstMissingError]
    split_ifs <;> simp
  · rfl
  · rfl

end OrderSys

namespace OrderSys

/-- C3: with maxRetries = 2, an operation that fails on every call is
called exactly 3 times, the sleep before each retry is
min(initialDelayMs · backoffMultiplier^attemptIndex, maxDelayMs), and
the last error is re-thrown unchanged; an operation that fails twice
and then succeeds yields the success value after exactly 3 calls. -/
theorem retryWithBackoff_maxRetries_two {E A : Type} (opts : RetryOptions)
    (hopts : opts.maxRetries = 2) :
    (∀ (fn : Nat → Except E A) (e0 e1 e2 : E),
        fn 0 = .error e0 → fn 1 = .error e1 → fn 2 = .error e2 →
        retryWithBackoff fn opts =
          ⟨.error e2, 3,
            [min (opts.initialDelayMs * opts.backoffMultiplier ^ 0) opts.maxDelayMs,
             min (opts.initialDelayMs * opts.backoffMultiplier ^ 1) opts.maxDelayMs]⟩) ∧
    (∀ (fn : Nat → Except E A) (e0 e1 : E) (a : A),
        fn 0 = .error e0 → fn 1 = .error e1 → fn 2 = .ok a →
        retryWithBackoff fn opts =
          ⟨.ok a, 3,
            [min (opts.initialDelayMs * opts.backoffMultiplier ^ 0) opts.maxDelayMs,
             min (opts.initialDelayMs * opts.backoffMultiplier ^ 1) opts.maxDelayMs]⟩) := by
  constructor
  · intro fn e0 e1 e2 h0 h1 h2
    simp [retryWithBackoff, hopts, retryGo, h0, h1, h2, retryDelay]
  · intro fn e0 e1 a h0 h1 h2
    simp [retryWithBackoff, hopts, retryGo, h0, h1, h2, retryDelay]

/-- Witness for `retryWithBackoff_maxRetries_two`: an always-failing
operation and a fails-twice-then-succeeds operation, with the default
delay options and maxRetries = 2. -/
theorem retryWithBackoff_maxRetries_two_witness :
    retryWithBackoff (fun i => (Except.error i : Except Nat Nat))
        { maxRetries := 2 } =
      ⟨Except.error 2, 3,
        [min (100 * 2 ^ 0) 10000, min (100 * 2 ^ 1) 10000]⟩ ∧
    retryWithBackoff
        (fun i => if i < 2 then (Except.error i : Except Nat Nat) else Except.ok 77)
        { maxRetries := 2 } =
      ⟨Except.ok 77, 3,
        [min (100 * 2 ^ 0) 10000, min (100 * 2 ^ 1) 10000]⟩ :=
  ⟨(retryWithBackoff_maxRetries_two { maxRetries := 2 } rfl).1
      (fun i => Except.error i) 0 1 2 rfl rfl rfl,
   (retryWithBackoff_maxRetries_two { maxRetries := 2 } rfl).2
      (fun i => if i < 2 then Except.error i else Except.ok 77) 0 1 77
      rfl rfl rfl⟩

end OrderSys

namespace OrderSys

/-- C1: updateOrder on an unknown orderId raises
"Order not found: {id}"; on an existing order it applies through the
repository a partial-update map holding exactly updatedAt = now,
version = existing + 1, and — only when present in the request — items
with recomputed totalAmount, status, and shippingAddress; the published
ORDER_UPDATED event carries that exact map as its `updates` field. -/
theorem orderService_updateOrder_spec :
    (∀ (db : String → Option Order) (request : UpdateOrderRequest) (now : String),
        db request.orderId = none →
        updateOrder db request now =
          .error ("Order not found: " ++ request.orderId)) ∧
    (∀ (db : String → Option Order) (request : UpdateOrderRequest)
        (now : String) (existing : Order),
        db request.orderId = some existing →
        ∃ u : List (String × FieldValue),
          updateOrder db request now =
            .ok (repoUpdate existing u,
              DomainEvent.orderUpdated
                { orderId := (repoUpdate existing u).orderId
                  updates := u
                  updatedAt := (repoUpdate existing u).updatedAt }) ∧
          u.lookup "updatedAt" = some (FieldValue.str now) ∧
          u.lookup "version" = some (FieldValue.nat (existing.version + 1)) ∧
          u.lookup "items" = request.items.map FieldValue.items ∧
          u.lookup "totalAmount" =
            request.items.map (fun its => FieldValue.rat (itemsTotal its)) ∧
          u.lookup "status" = request.status.map FieldValue.status ∧
          u.lookup "shippingAddress" = request.shippingAddress.map FieldValue.addr ∧
          u.map Prod.fst =
            ["updatedAt", "version"]
            ++ (if request.items.isSome then ["items", "totalAmount"] else [])
            ++ (if request.status.isSome then ["status"] else [])
            ++ (if request.shippingAddress.isSome then ["shippingAddress"] else [])) := by
  constructor
  · intro db request now h
    simp [updateOrder, h]
  · intro db request now existing h
    refine ⟨buildUpdates request existing now, ?_, ?_, ?_, ?_, ?_, ?_, ?_, ?_⟩
    · simp [updateOrder, h]
    all_goals
      rcases request with ⟨oid, its, st, sa⟩
      cases its <;> cases st <;> cases sa <;>
        simp [buildUpdates, List.lookup]

/-- Witness for `orderService_updateOrder_spec`: the not-found branch
at an id absent from the sample store, and the update branch for a
status-only request on the stored sample order. -/
theorem orderService_updateOrder_spec_witness :
    (updateOrder sampleDb { orderId := "missing" } "2026-02-02T00:00:00.000Z" =
      .error ("Order not found: " ++ "missing")) ∧
    (∃ u : List (String × FieldValue),
      updateOrder sampleDb
          { orderId := "order-1", status := some OrderStatus.PROCESSING }
          "2026-02-02T00:00:00.000Z" =
        .ok (repoUpdate sampleOrder u,
          DomainEvent.orderUpdated
            { orderId := (repoUpdate sampleOrder u).orderId
              updates := u
              updatedAt := (repoUpdate sampleOrder u).updatedAt }) ∧
      u.lookup "updatedAt" = some (FieldValue.str "2026-02-02T00:00:00.000Z") ∧
      u.lookup "version" = some (FieldValue.nat (sampleOrder.version + 1)) ∧
      u.lookup "items" =
        ({ orderId := "order-1", status := some OrderStatus.PROCESSING } :
          UpdateOrderRequest).items.map FieldValue.items ∧
      u.lookup "totalAmount" =
        ({ orderId := "order-1", status := some OrderStatus.PROCESSING } :
          UpdateOrderRequest).items.map (fun its => FieldValue.rat (itemsTotal its)) ∧
      u.lookup "status" =
        ({ orderId := "order-1", status := some OrderStatus.PROCESSING } :
          UpdateOrderRequest).status.map FieldValue.status ∧
      u.lookup "shippingAddress" =
        ({ orderId := "order-1", status := some OrderStatus.PROCESSING } :
          UpdateOrderRequest).shippingAddress.map FieldValue.addr ∧
      u.map Prod.fst =
        ["updatedAt", "version"]
        ++ (if ({ orderId := "order-1", status := some OrderStatus.PROCESSING } :
              UpdateOrderRequest).items.isSome then ["items", "totalAmount"] else [])
        ++ (if ({ orderId := "order-1", status := some OrderStatus.PROCESSING } :
              UpdateOrderRequest).status.isSome then ["status"] else [])
        ++ (if ({ orderId := "order-1", status := some OrderStatus.PROCESSING } :
              UpdateOrderRequest).shippingAddress.isSome
            then ["shippingAddress"] else [])) :=
  ⟨orderService_updateOrder_spec.1 sampleDb { orderId := "missing" }
      "2026-02-02T00:00:00.000Z" rfl,
   orderService_updateOrder_spec.2 sampleDb
      { orderId := "order-1", status := some OrderStatus.PROCESSING }
      "2026-02-02T00:00:00.000Z" sampleOrder rfl⟩

end OrderSys

namespace OrderSys

theorem mapSet_overwrite {V : Type} (m : List (String × V)) (k : String) (v w : V) :
    mapSet (mapSet m k v) k w = mapSet m k w := by
  induction m with
  | nil => simp [mapSet]
  | cons e rest ih =>
    obtain ⟨ek, ev⟩ := e
    by_cases hk : ek = k
    · subst hk
      simp [mapSet]
    · simp [mapSet, hk, ih]

/-- C7: dispatch of an event type with no registered handler returns
successfully; registering twice for one event type silently replaces
the first handler (last registration wins); a handler error propagates
out of dispatch unmodified. -/
theorem eventHandlerRegistry_spec {E : Type} :
    (∀ (r : EventHandlerRegistry E) (event : DomainEvent),
        r.handlers.lookup event.eventTag = none →
        r.dispatch event = .ok ()) ∧
    (∀ (r : EventHandlerRegistry E) (eventType : String)
        (h1 h2 : DomainEvent → Except E Unit),
        (r.register eventType h1).register eventType h2 =
          r.register eventType h2) ∧
    (∀ (r : EventHandlerRegistry E) (event : DomainEvent)
        (handler : DomainEvent → Except E Unit) (e : E),
        r.handlers.lookup event.eventTag = some handler →
        handler event = .error e →
        r.dispatch event = .error e) := by
  refine ⟨?_, ?_, ?_⟩
  · intro r event h
    simp [EventHandlerRegistry.dispatch, h]
  · intro r eventType h1 h2
    simp [EventHandlerRegistry.register, mapSet_overwrite]
  · intro r event handler e hl he
    simp [EventHandlerRegistry.dispatch, hl, he]

/-- Witness for `eventHandlerRegistry_spec`: an empty registry
dispatching an ORDER_UPDATED event, and a one-handler registry whose
handler raises "Handler error". -/
theorem eventHandlerRegistry_spec_witness :
    (EventHandlerRegistry.dispatch (E := String) {}
        (DomainEvent.orderUpdated
          { orderId := "order-1", updates := [],
            updatedAt := "2026-01-01T00:00:00.000Z" }) = .ok ()) ∧
    (EventHandlerRegistry.dispatch
        (EventHandlerRegistry.register (E := String) {} "ORDER_UPDATED"
          (fun _ => .error "Handler error"))
        (DomainEvent.orderUpdated
          { orderId := "order-1", updates := [],
            updatedAt := "2026-01-01T00:00:00.000Z" }) = .error "Handler error") :=
  ⟨eventHandlerRegistry_spec.1 {}
      (DomainEvent.orderUpdated
        { orderId := "order-1", updates := [],
          updatedAt := "2026-01-01T00:00:00.000Z" }) rfl,
   (eventHandlerRegistry_spec.2.2)
      (EventHandlerRegistry.register (E := String) {} "ORDER_UPDATED"
        (fun _ => .error "Handler error"))
      (DomainEvent.orderUpdated
        { orderId := "order-1", updates := [],
          updatedAt := "2026-01-01T00:00:00.000Z" })
      (fun _ => .error "Handler error") "Handler error" rfl rfl⟩

end OrderSys

namespace OrderSys

theorem b64Index_b64Char : ∀ i : Nat, i < 64 → b64Index (b64Char i) = some i := by
  decide

theorem b64Char_ne_pad (n : Nat) : b64Char n ≠ '=' := by
  rcases Nat.lt_or_ge n 64 with h | h
  · have hall : ∀ i : Nat, i < 64 → b64Char i ≠ '=' := by decide
    exact hall n h
  · have hlen : b64Alphabet.length = 64 := by decide
    unfold b64Char
    rw [List.getD_eq_default]
    · decide
    · omega

theorem base64DecodeChars_encodeChars :
    ∀ bs : List Nat, (∀ x ∈ bs, x < 256) →
      base64DecodeChars (base64EncodeChars bs) = some bs := by
  have main : ∀ (fuel : Nat) (bs : List Nat), bs.length ≤ fuel →
      (∀ x ∈ bs, x < 256) →
      base64DecodeChars (base64EncodeChars bs) = some bs := by
    intro fuel
    induction fuel with
    | zero =>
      intro bs hlen _
      have : bs = [] := List.length_eq_zero.mp (Nat.le_zero.mp hlen)
      subst this
      rfl
    | succ n ih =>
      intro bs hlen hval
      match bs with
      | [] => rfl
      | [a] =>
        have ha : a < 256 := hval a (by simp)
        have h1 : b64Index (b64Char (a / 4)) = some (a / 4) :=
          b64Index_b64Char _ (by omega)
        have h2 : b64Index (b64Char (a % 4 * 16)) = some (a % 4 * 16) :=
          b64Index_b64Char _ (by omega)
        simp [base64EncodeChars, base64DecodeChars, h1, h2]
        all_goals omega
      | [a, b] =>
        have ha : a < 256 := hval a (by simp)
        have hb : b < 256 := hval b (by simp)
        have h1 : b64Index (b64Char (a / 4)) = some (a / 4) :=
          b64Index_b64Char _ (by omega)
        have h2 : b64Index (b64Char (a % 4 * 16 + b / 16)) =
            some (a % 4 * 16 + b / 16) :=
          b64Index_b64Char _ (by omega)
        have h3 : b64Index (b64Char (b % 16 * 4)) = some (b % 16 * 4) :=
          b64Index_b64Char _ (by omega)
        simp [base64EncodeChars, base64DecodeChars, b64Char_ne_pad, h1, h2, h3]
        all_goals omega
      | a :: b :: c :: rest =>
        have ha : a < 256 := hval a (by simp)
        have hb : b < 256 := hval b (by simp)
        have hc : c < 256 := hval c (by simp)
        have h1 : b64Index (b64Char (a / 4)) = some (a / 4) :=
          b64Index_b64Char _ (by omega)
        have h2 : b64Index (b64Char (a % 4 * 16 + b / 16)) =
            some (a % 4 * 16 + b / 16) :=
          b64Index_b64Char _ (by omega)
        have h3 : b64Index (b64Char (b % 16 * 4 + c / 64)) =
            some (b % 16 * 4 + c / 64) :=
          b64Index_b64Char _ (by omega)
        have h4 : b64Index (b64Char (c % 64)) = some (c % 64) :=
          b64Index_b64Char _ (by omega)
        have htail : base64DecodeChars (base64EncodeChars rest) = some rest := by
          apply ih rest
          · simp at hlen
            omega
          · intro x hx
            exact hval x (by simp [hx])
        have hstep : base64EncodeChars (a :: b :: c :: rest) =
            b64Char (a / 4) :: b64Char (a % 4 * 16 + b / 16) ::
            b64Char (b % 16 * 4 + c / 64) :: b64Char (c % 64) ::
            base64EncodeChars rest := rfl
        rw [hstep]
        simp [base64DecodeChars, b64Char_ne_pad, h1, h2, h3, h4, htail]
        all_goals omega
  intro bs hval
  exact main bs.length bs (Nat.le_refl _) hval

/-- Round trip of the repository's token codec at the string level. -/
theorem base64Decode_encode (bytes : List Nat) (h : ∀ x ∈ bytes, x < 256) :
    base64Decode (base64Encode bytes) = some bytes :=
  base64DecodeChars_encodeChars bytes h

end OrderSys

namespace OrderSys

/-- C9: the continuation token of findAll and queryByIndex is the
base64 encoding of the store's serialized resume-cursor, and a token
passed back in a later call is decoded to the original cursor
byte-for-byte, so the subsequent page is exactly the store's page at
that cursor. -/
theorem repository_nextToken_roundtrip :
    (∀ cursor : List Nat, (∀ b ∈ cursor, b < 256) →
        base64Decode (base64Encode cursor) = some cursor) ∧
    (∀ (scan : Option (List Nat) → ScanPage) (start : Option String)
        (startKey : Option (List Nat)),
        (start = none ∧ startKey = none) ∨
          (∃ cur, startKey = some cur ∧ start = some (base64Encode cur) ∧
            ∀ b ∈ cur, b < 256) →
        findAll scan start =
          some { items := (scan startKey).items,
                 nextToken := (scan startKey).lastEvaluatedKey.map base64Encode,
                 count := (scan startKey).count }) ∧
    (∀ (query : String → String → List (String × String) →
          Option (List Nat) → ScanPage)
        (indexName keyCond : String) (vals : List (String × String))
        (start : Option String) (startKey : Option (List Nat)),
        (start = none ∧ startKey = none) ∨
          (∃ cur, startKey = some cur ∧ start = some (base64Encode cur) ∧
            ∀ b ∈ cur, b < 256) →
        queryByIndex query indexName keyCond vals start =
          some { items := (query indexName keyCond vals startKey).items,
                 nextToken :=
                   (query indexName keyCond vals startKey).lastEvaluatedKey.map
                     base64Encode,
                 count := (query indexName keyCond vals startKey).count }) := by
  refine ⟨base64Decode_encode, ?_, ?_⟩
  · intro scan start startKey h
    rcases h with ⟨h1, h2⟩ | ⟨cur, hk, hs, hvalid⟩
    · subst h1; subst h2; rfl
    · subst hk; subst hs
      simp [findAll, base64Decode_encode cur hvalid]
  · intro query indexName keyCond vals start startKey h
    rcases h with ⟨h1, h2⟩ | ⟨cur, hk, hs, hvalid⟩
    · subst h1; subst h2; rfl
    · subst hk; subst hs
      simp [queryByIndex, base64Decode_encode cur hvalid]

/-- Witness for `repository_nextToken_roundtrip`: a concrete 5-byte
cursor, a scan whose first page ends at that cursor, and the resumed
scan and index query at the token the first page returned. -/
theorem repository_nextToken_roundtrip_witness :
    (base64Decode (base64Encode [11, 22, 33, 44, 55]) =
      some [11, 22, 33, 44, 55]) ∧
    (findAll (fun _ => { items := [], lastEvaluatedKey := none, count := 0 })
        (some (base64Encode [11, 22, 33, 44, 55])) =
      some { items := [], nextToken := none, count := 0 }) ∧
    (queryByIndex (fun _ _ _ _ => { items := [], lastEvaluatedKey := none, count := 0 })
        "CustomerIdIndex" "customerId = :customerId" [(":customerId", "customer-123")]
        (some (base64Encode [11, 22, 33, 44, 55])) =
      some { items := [], nextToken := none, count := 0 }) :=
  ⟨repository_nextToken_roundtrip.1 [11, 22, 33, 44, 55] (by decide),
   repository_nextToken_roundtrip.2.1
      (fun _ => { items := [], lastEvaluatedKey := none, count := 0 })
      (some (base64Encode [11, 22, 33, 44, 55])) (some [11, 22, 33, 44, 55])
      (Or.inr ⟨[11, 22, 33, 44, 55], rfl, rfl, by decide⟩),
   repository_nextToken_roundtrip.2.2
      (fun _ _ _ _ => { items := [], lastEvaluatedKey := none, count := 0 })
      "CustomerIdIndex" "customerId = :customerId" [(":customerId", "customer-123")]
      (some (base64Encode [11, 22, 33, 44, 55])) (some [11, 22, 33, 44, 55])
      (Or.inr ⟨[11, 22, 33, 44, 55], rfl, rfl, by decide⟩)⟩

end OrderSys

namespace OrderSys

/-- C5: the error boundary never re-throws — every inner outcome maps
to a response — and it maps a ZodError to HTTP 400 carrying the
structured violation list, any other Error to HTTP 500 carrying that
error's message, and any non-Error thrown value to HTTP 500 with a
generic message, while passing successful responses through
unchanged. -/
theorem errorHandlerMiddleware_spec :
    (∀ inner : Except Thrown LambdaResult,
        ∃ r : LambdaResult, errorHandlerMiddleware inner = .ok r) ∧
    (∀ r : LambdaResult, errorHandlerMiddleware (.ok r) = .ok r) ∧
    (∀ issues : List ZodIssue,
        errorHandlerMiddleware (.error (.zodError issues)) =
          .ok { statusCode := 400,
                body := errorBodyJson "Validation error" (some issues)
                  "VALIDATION_ERROR" }) ∧
    (∀ message : String,
        errorHandlerMiddleware (.error (.jsError message)) =
          .ok { statusCode := 500,
                body := errorBodyJson message none "INTERNAL_ERROR" }) ∧
    (∀ value : String,
        errorHandlerMiddleware (.error (.nonError value)) =
          .ok { statusCode := 500,
                body := errorBodyJson "Internal server error" none
                  "INTERNAL_ERROR" }) := by
  refine ⟨?_, ?_, ?_, ?_, ?_⟩
  · intro inner
    exact ⟨_, rfl⟩
  · intro r; rfl
  · intro issues; rfl
  · intro message; rfl
  · intro value; rfl

end OrderSys

namespace OrderSys

/-- C4 counterexample: on a DELETE of an existing order the handler
does answer 204, but the body is the JSON success envelope — not an
empty body. -/
theorem deleteOrder_204_body_nonempty :
    ∃ r : LambdaResult,
      deleteOrderLambda sampleDb sampleDeleteEvent "req-1"
          "2026-03-03T00:00:00.000Z" = .ok r ∧
      r.statusCode = 204 ∧ r.body ≠ "" :=
  ⟨_, rfl, rfl, by decide⟩

/-- C4 amended: DELETE of an existing order responds 204 with the JSON
success envelope carrying an empty data object as body (non-empty);
when the orderId path parameter is missing the response is 400 with
the VALIDATION_ERROR envelope. -/
theorem deleteOrderHandler_spec :
    (∀ (db : String → Option Order) (event : DeleteApiEvent)
        (requestId now orderId : String) (o : Order),
        event.pathParameters.bind (fun ps => ps.lookup "orderId") = some orderId →
        db orderId = some o →
        deleteOrderLambda db event requestId now =
          .ok { statusCode := 204,
                body := successBodyJson "\x7b\x7d" (some requestId) now } ∧
        successBodyJson "\x7b\x7d" (some requestId) now ≠ "") ∧
    (∀ (db : String → Option Order) (event : DeleteApiEvent)
        (requestId now : String),
        event.pathParameters.bind (fun ps => ps.lookup "orderId") = none →
        deleteOrderLambda db event requestId now =
          .ok { statusCode := 400,
                body := errorStringBodyJson "Order ID is required"
                  "VALIDATION_ERROR" }) := by
  constructor
  · intro db event requestId now orderId o hpath hdb
    constructor
    · simp [deleteOrderLambda, deleteOrderHandler, hpath, hdb,
        errorHandlerMiddleware, createResponse]
    · intro hcontra
      have hlen := congrArg String.length hcontra
      simp [successBodyJson, jsonString, String.length_append] at hlen
      exact absurd hlen.1.1.1.1 (by decide)
  · intro db event requestId now hpath
    simp [deleteOrderLambda, deleteOrderHandler, hpath, errorHandlerMiddleware]

/-- Witness for `deleteOrderHandler_spec`: the sample store and the
DELETE event for the stored order, plus an event with no path
parameters. -/
theorem deleteOrderHandler_spec_witness :
    (deleteOrderLambda sampleDb sampleDeleteEvent "req-1"
        "2026-03-03T00:00:00.000Z" =
      .ok { statusCode := 204,
            body := successBodyJson "\x7b\x7d" (some "req-1")
              "2026-03-03T00:00:00.000Z" } ∧
      successBodyJson "\x7b\x7d" (some "req-1") "2026-03-03T00:00:00.000Z" ≠ "") ∧
    (deleteOrderLambda sampleDb {} "req-1" "2026-03-03T00:00:00.000Z" =
      .ok { statusCode := 400,
            body := errorStringBodyJson "Order ID is required"
              "VALIDATION_ERROR" }) :=
  ⟨deleteOrderHandler_spec.1 sampleDb sampleDeleteEvent "req-1"
      "2026-03-03T00:00:00.000Z" "order-1" sampleOrder rfl rfl,
   deleteOrderHandler_spec.2 sampleDb {} "req-1" "2026-03-03T00:00:00.000Z" rfl⟩

end OrderSys

namespace OrderSys

/-- C8: a syntactically invalid customerEmail makes createOrderSchema
raise a structured error containing the email violation; the error of
a request violating several rules enumerates all of them in one shot
(shown on a request with a bad email and a bad zip code); and a valid
request with shippingAddress.country omitted normalizes country to
"US". -/
theorem createOrderSchema_spec :
    (∀ (raw : RawCreateOrder) (e : String),
        raw.customerEmail = some e → isValidEmail e = false →
        ∃ issues, createOrderParse raw = .error issues ∧
          ZodIssue.mk ["customerEmail"] "Invalid email" ∈ issues) ∧
    (createOrderParse sampleBadRaw =
      .error [⟨["customerEmail"], "Invalid email"⟩,
              ⟨["shippingAddress", "zipCode"], "Invalid"⟩]) ∧
    (∀ (raw : RawCreateOrder) (a : RawAddress) (out : CreateOrderRequest),
        raw.shippingAddress = some a → a.country = none →
        createOrderParse raw = .ok out →
        out.shippingAddress.country = "US") := by
  refine ⟨?_, ?_, ?_⟩
  · intro raw e he hinv
    have hmem : ZodIssue.mk ["customerEmail"] "Invalid email" ∈
        createOrderIssues raw := by
      simp [createOrderIssues, he, hinv]
    refine ⟨createOrderIssues raw, ?_, hmem⟩
    cases hl : createOrderIssues raw with
    | nil =>
      rw [hl] at hmem
      simp at hmem
    | cons x xs =>
      simp [createOrderParse, hl]
  · rfl
  · intro raw a out hs hc hout
    simp only [createOrderParse] at hout
    split at hout
    · cases hout
      simp [normalizeAddress, hs, hc]
    · exact absurd hout (by simp)

/-- Witness for `createOrderSchema_spec`: the bad-email request and
the valid request with country omitted. -/
theorem createOrderSchema_spec_witness :
    (∃ issues, createOrderParse sampleBadRaw = .error issues ∧
        ZodIssue.mk ["customerEmail"] "Invalid email" ∈ issues) ∧
    sampleGoodRequest.shippingAddress.country = "US" :=
  ⟨createOrderSchema_spec.1 sampleBadRaw "invalid-email" rfl (by decide),
   createOrderSchema_spec.2.2 sampleGoodRaw
      { street := some "123 Main St", city := some "Boston",
        state := some "MA", zipCode := some "02101", country := none }
      sampleGoodRequest rfl rfl rfl⟩

end OrderSys

namespace OrderSys

/-- C10: a null/undefined body is replaced by the empty object and
validated against the schema — so a missing body yields the schema's
structured validation error, surfaced as HTTP 400 by the error
boundary — and a body that validates has its normalized result handed
to the inner chain. -/
theorem validationMiddleware_spec :
    (∀ {Raw V : Type} (emptyObj : Raw)
        (schemaParse : Raw → Except (List ZodIssue) V)
        (next : V → Except Thrown LambdaResult),
        validationMiddleware emptyObj schemaParse none next =
          validationMiddleware emptyObj schemaParse (some emptyObj) next) ∧
    (∀ {Raw V : Type} (emptyObj : Raw)
        (schemaParse : Raw → Except (List ZodIssue) V)
        (next : V → Except Thrown LambdaResult) (issues : List ZodIssue),
        schemaParse emptyObj = .error issues →
        errorHandlerMiddleware
            (validationMiddleware emptyObj schemaParse none next) =
          .ok { statusCode := 400,
                body := errorBodyJson "Validation error" (some issues)
                  "VALIDATION_ERROR" }) ∧
    (∀ {Raw V : Type} (emptyObj : Raw)
        (schemaParse : Raw → Except (List ZodIssue) V)
        (next : V → Except Thrown LambdaResult) (body : Raw) (v : V),
        schemaParse body = .ok v →
        validationMiddleware emptyObj schemaParse (some body) next = next v) := by
  refine ⟨?_, ?_, ?_⟩
  · intro Raw V emptyObj schemaParse next
    rfl
  · intro Raw V emptyObj schemaParse next issues h
    simp [validationMiddleware, h, errorHandlerMiddleware]
  · intro Raw V emptyObj schemaParse next body v h
    simp [validationMiddleware, h]

/-- Witness for `validationMiddleware_spec`: the createOrder schema
with a missing body (the empty raw object fails with the four Required
issues, mapped to 400 by the boundary) and with the valid sample
body. -/
theorem validationMiddleware_spec_witness :
    (errorHandlerMiddleware
        (validationMiddleware ({} : RawCreateOrder) createOrderParse none
          (fun _ => .ok { statusCode := 201, body := "" })) =
      .ok { statusCode := 400,
            body := errorBodyJson "Validation error"
              (some [⟨["customerId"], "Required"⟩,
                     ⟨["customerEmail"], "Required"⟩,
                     ⟨["items"], "Required"⟩,
                     ⟨["shippingAddress"], "Required"⟩])
              "VALIDATION_ERROR" }) ∧
    (validationMiddleware ({} : RawCreateOrder) createOrderParse
        (some sampleGoodRaw) (fun _ => .ok { statusCode := 201, body := "" }) =
      (fun _ => (.ok { statusCode := 201, body := "" } :
        Except Thrown LambdaResult)) sampleGoodRequest) :=
  ⟨validationMiddleware_spec.2.1 ({} : RawCreateOrder) createOrderParse
      (fun _ => .ok { statusCode := 201, body := "" })
      [⟨["customerId"], "Required"⟩, ⟨["customerEmail"], "Required"⟩,
       ⟨["items"], "Required"⟩, ⟨["shippingAddress"], "Required"⟩] rfl,
   validationMiddleware_spec.2.2 ({} : RawCreateOrder) createOrderParse
      (fun _ => .ok { statusCode := 201, body := "" })
      sampleGoodRaw sampleGoodRequest rfl⟩

end OrderSys
